import Mathlib

/-!
Shallow embedding of the `tonic_rpc` attribute-macro pipeline from
`src/tonic-rpc-macro/src/lib.rs` (crate `tonic-rpc-macro`), together with
theorems settling the specification claims about it.

The macro consumes a parsed Rust trait (`syn::ItemTrait`), normalizes each
trait method into a `MyMethod` descriptor (`make_method`), assembles a
`MyService`, and emits type aliases plus two invocations of the external
`tonic_build` stub generator.  Type expressions and token streams are
modelled as their token text (`String`); the parsed syntax tree
(`ItemTrait`, `TraitItemMethod`, `syn::punctuated::Pair`, `syn::FnArg`,
`syn::ReturnType`) is modelled structurally.  The Rust `panic!` calls in
`make_method` are modelled by `Except.error`.
-/

namespace TonicRpc

/-- A formal argument of a trait method, mirroring the two `syn::FnArg`
variants the macro distinguishes: the `self` receiver, and a typed pattern
whose type expression is kept as token text. -/
inductive FnArg where
| receiver : FnArg
| typed : String → FnArg
deriving DecidableEq

/-- One element of `syn::punctuated::Punctuated::into_pairs()`: an element
followed by a comma (`Pair::Punctuated`) or a final element without a
trailing comma (`Pair::End`). -/
inductive Pair (α : Type) where
| punctuated : α → Pair α
| end_ : α → Pair α
deriving DecidableEq

/-- The `syn::ReturnType` of a method signature: either omitted
(`ReturnType::Default`) or a declared type expression kept as token text. -/
inductive ReturnType where
| default : ReturnType
| type : String → ReturnType
deriving DecidableEq

/-- A parsed trait method (`syn::TraitItemMethod`) as the macro reads it:
its identifier, the idents of its attribute paths, the punctuated pairs of
`sig.inputs`, and its return type. -/
structure TraitItemMethod where
  name : String
  attrs : List String
  inputs : List (Pair FnArg)
  output : ReturnType
deriving DecidableEq

/-- An item of the trait body (`syn::TraitItem`): a method, or any
non-method item (associated const, associated type, ...) carrying only an
informal tag. -/
inductive TraitItem where
| method : TraitItemMethod → TraitItem
| other : String → TraitItem
deriving DecidableEq

/-- A parsed trait definition (`syn::ItemTrait`): its identifier and the
ordered list of its body items. -/
structure ItemTrait where
  ident : String
  items : List TraitItem
deriving DecidableEq

/-- The method descriptor `MyMethod` built by `make_method`
(src/tonic-rpc-macro/src/lib.rs, lines 8-17). -/
structure MyMethod where
  name : String
  identifier : String
  client_streaming : Bool
  server_streaming : Bool
  request : String
  response : String
  generated_request : String
  generated_response : String
deriving DecidableEq

/-- The service descriptor `MyService` (lines 48-53). -/
structure MyService where
  name : String
  package : String
  identifier : String
  methods : List MyMethod
deriving DecidableEq

/-- The codec path constant: both `impl Method for MyMethod` (line 20) and
`impl Service for MyService` (line 56) fix
`CODEC_PATH = "tonic_rpc::json_codec::MyCodec"`, independent of the
attribute tokens the macro receives. -/
def CODEC_PATH : String := "tonic_rpc::json_codec::MyCodec"

/-- The token text the macro uses for the response of a method with no
declared return type: `quote! { "()" }` (line 92) produces the string
literal token `"()"` (four characters, quotes included), not the unit type
`()`. -/
def default_response_tokens : String := "\x22()\x22"

/-- The panic message of `make_method` (lines 85 and 89). -/
def invalid_arg_msg : String := "Invalid rpc argument type"

/-- Alias ident built by `format_ident!("__tonic_generated_{}_{}_request", trait_name, name)`
(lines 102-106). -/
def request_alias (trait_name name : String) : String :=
  "__tonic_generated_" ++ trait_name ++ "_" ++ name ++ "_request"

/-- Alias ident built by `format_ident!("__tonic_generated_{}_{}_response", trait_name, name)`
(lines 107-111). -/
def response_alias (trait_name name : String) : String :=
  "__tonic_generated_" ++ trait_name ++ "_" ++ name ++ "_response"

/-- Embedding of `make_method` (lines 77-113).  The two `panic!` calls are
modelled by `Except.error`.  `args.pop()` on the length-checked vector of
punctuated pairs is `List.getLast?`; the popped element must be a
`Pair::End` holding a `FnArg::Typed`, otherwise the second panic fires. -/
def make_method (method : TraitItemMethod) (trait_name : String) :
    Except String MyMethod :=
  let name := method.name
  let server_streaming := method.attrs.any (fun a => a == "server_streaming")
  let args := method.inputs
  if args.length ≠ 1 then Except.error invalid_arg_msg
  else
    match args.getLast? with
    | some (Pair.end_ (FnArg.typed ty)) =>
        Except.ok
          { identifier := name
            name := name
            client_streaming := false
            server_streaming := server_streaming
            request := ty
            response :=
              match method.output with
              | ReturnType.default => default_response_tokens
              | ReturnType.type t => t
            generated_request := request_alias trait_name name
            generated_response := response_alias trait_name name }
    | _ => Except.error invalid_arg_msg

/-- Embedding of the `filter_map` over trait items (lines 119-126): method
items are normalized left to right by `make_method` (whose panic aborts the
whole iteration), all other items are skipped. -/
def collect_methods (trait_name : String) :
    List TraitItem → Except String (List MyMethod)
| [] => Except.ok []
| TraitItem.method m :: rest =>
    match make_method m trait_name with
    | Except.error e => Except.error e
    | Except.ok d =>
        match collect_methods trait_name rest with
        | Except.error e => Except.error e
        | Except.ok ds => Except.ok (d :: ds)
| TraitItem.other _ :: rest => collect_methods trait_name rest

/-- One invocation of the external `tonic_build` generator
(`tonic_build::client::generate(&service, "")` /
`tonic_build::server::generate(&service, "")`, lines 133-134), recorded by
the data the opaque generator receives: the service descriptor, the codec
path constant it reads from the `Service`/`Method` impls, and the
proto-path argument (always the empty string). -/
structure StubInvocation where
  service : MyService
  codec_path : String
  proto_path : String
deriving DecidableEq

/-- The macro's output (lines 135-151): the emitted type-alias
declarations in order (alias name paired with its right-hand-side token
text), then the client generator invocation, then the server generator
invocation. -/
structure GeneratedOutput where
  type_aliases : List (String × String)
  client : StubInvocation
  server : StubInvocation
deriving DecidableEq

/-- The type-alias block (lines 135-145): for each method in order, a
`type <generated_request> = <request>;` alias followed by a
`type <generated_response> = <response>;` alias. -/
def emit_type_aliases (methods : List MyMethod) : List (String × String) :=
  methods.flatMap (fun m =>
    [(m.generated_request, m.request), (m.generated_response, m.response)])

/-- Embedding of the `tonic_rpc` proc-macro entry point (lines 115-152).
The attribute tokens are received but never inspected (`_attributes`); the
trait name is used, cloned, as service name, package and identifier. -/
def tonic_rpc (_attributes : String) (item : ItemTrait) :
    Except String GeneratedOutput :=
  let name := item.ident
  match collect_methods name item.items with
  | Except.error e => Except.error e
  | Except.ok methods =>
      let service : MyService :=
        { name := name, package := name, identifier := name, methods := methods }
      Except.ok
        { type_aliases := emit_type_aliases service.methods
          client := { service := service, codec_path := CODEC_PATH, proto_path := "" }
          server := { service := service, codec_path := CODEC_PATH, proto_path := "" } }

/-! Concrete inputs: the spec's scenario trait `Calc` with
`fn add(x: Pair) -> i32`, the `server_streaming`-annotated
`fn watch(topic: String) -> Event`, and some degenerate method shapes. -/

/-- The name of the scenario trait. -/
def calc_name : String := "Calc"

/-- A generic service name for single-method examples. -/
def svc_name : String := "Svc"

/-- The codec selector token `json`. -/
def json_selector : String := "json"

/-- The codec selector token `cbor`. -/
def cbor_selector : String := "cbor"

/-- The method `fn add(x: Pair) -> i32`. -/
def add_method : TraitItemMethod :=
  { name := "add"
    attrs := []
    inputs := [Pair.end_ (FnArg.typed ("Pair"))]
    output := ReturnType.type ("i32") }

/-- The method `#[server_streaming] fn watch(topic: String) -> Event`. -/
def watch_method : TraitItemMethod :=
  { name := "watch"
    attrs := ["server_streaming"]
    inputs := [Pair.end_ (FnArg.typed ("String"))]
    output := ReturnType.type ("Event") }

/-- The method `fn ping(x: i32);` with no declared return type. -/
def ping_method : TraitItemMethod :=
  { name := "ping"
    attrs := []
    inputs := [Pair.end_ (FnArg.typed ("i32"))]
    output := ReturnType.default }

/-- The method `fn f(x: i32,);`: exactly one typed formal parameter,
followed by a trailing comma, so its sole punctuated pair is
`Pair::Punctuated`. -/
def trailing_comma_method : TraitItemMethod :=
  { name := "f"
    attrs := []
    inputs := [Pair.punctuated (FnArg.typed ("i32"))]
    output := ReturnType.default }

/-- The method `fn g(&self);`: its sole argument is the receiver. -/
def receiver_method : TraitItemMethod :=
  { name := "g"
    attrs := []
    inputs := [Pair.end_ FnArg.receiver]
    output := ReturnType.default }

/-- The scenario trait `Calc`, with one non-method item in its body. -/
def calc_trait : ItemTrait :=
  { ident := "Calc"
    items := [TraitItem.method add_method,
              TraitItem.method watch_method,
              TraitItem.other ("const")] }

/-- The descriptor `make_method` builds for `add` in `Calc`. -/
def calc_add_descriptor : MyMethod :=
  { name := "add"
    identifier := "add"
    client_streaming := false
    server_streaming := false
    request := "Pair"
    response := "i32"
    generated_request := "__tonic_generated_Calc_add_request"
    generated_response := "__tonic_generated_Calc_add_response" }

/-- The descriptor `make_method` builds for `watch` in `Calc`. -/
def calc_watch_descriptor : MyMethod :=
  { name := "watch"
    identifier := "watch"
    client_streaming := false
    server_streaming := true
    request := "String"
    response := "Event"
    generated_request := "__tonic_generated_Calc_watch_request"
    generated_response := "__tonic_generated_Calc_watch_response" }

/-- The service descriptor assembled for `Calc`. -/
def calc_service : MyService :=
  { name := "Calc"
    package := "Calc"
    identifier := "Calc"
    methods := [calc_add_descriptor, calc_watch_descriptor] }

/-- The full generated output for `Calc`. -/
def calc_output : GeneratedOutput :=
  { type_aliases :=
      [("__tonic_generated_Calc_add_request", "Pair"),
       ("__tonic_generated_Calc_add_response", "i32"),
       ("__tonic_generated_Calc_watch_request", "String"),
       ("__tonic_generated_Calc_watch_response", "Event")]
    client := { service := calc_service, codec_path := CODEC_PATH, proto_path := "" }
    server := { service := calc_service, codec_path := CODEC_PATH, proto_path := "" } }

/-! Helper lemmas shared across the claim theorems. -/

/-- The descriptor `make_method` builds in its successful branch, as a
function of the method, the trait name and the sole parameter's type. -/
def normalized (m : TraitItemMethod) (s ty : String) : MyMethod :=
  { name := m.name
    identifier := m.name
    client_streaming := false
    server_streaming := m.attrs.any (fun a => a == "server_streaming")
    request := ty
    response :=
      match m.output with
      | ReturnType.default => default_response_tokens
      | ReturnType.type t => t
    generated_request := request_alias s m.name
    generated_response := response_alias s m.name }

/-- Characterization of the successful runs of `make_method`: it succeeds
exactly on a singleton input list holding a `Pair::End` around a
`FnArg::Typed`, and then returns `normalized`. -/
theorem make_method_ok_iff (m : TraitItemMethod) (s : String) (d : MyMethod) :
    make_method m s = Except.ok d ↔
      ∃ ty, m.inputs = [Pair.end_ (FnArg.typed ty)] ∧ d = normalized m s ty := by
  cases hm : m.inputs with
  | nil => simp [make_method, hm]
  | cons a tl =>
    cases tl with
    | cons b tl2 => simp [make_method, hm]
    | nil =>
      cases a with
      | punctuated x => simp [make_method, hm]
      | end_ x =>
        cases x with
        | receiver => simp [make_method, hm]
        | typed ty0 => simp [make_method, normalized, hm, eq_comm]

/-- Characterization of the failing runs of `make_method`: it panics
exactly when the input list is not a singleton `Pair::End`-`FnArg::Typed`. -/
theorem make_method_err_iff (m : TraitItemMethod) (s : String) :
    make_method m s = Except.error invalid_arg_msg ↔
      ∀ ty, m.inputs ≠ [Pair.end_ (FnArg.typed ty)] := by
  cases hm : m.inputs with
  | nil => simp [make_method, hm]
  | cons a tl =>
    cases tl with
    | cons b tl2 => simp [make_method, hm]
    | nil =>
      cases a with
      | punctuated x => simp [make_method, hm]
      | end_ x =>
        cases x with
        | receiver => simp [make_method, hm]
        | typed ty0 => simp [make_method, hm]

/-- Reduction of `Except` bind on an error. -/
theorem except_bind_error {α β : Type} (e : String) (f : α → Except String β) :
    (Except.error e >>= f) = Except.error e := rfl

/-- Reduction of `Except` bind on a success. -/
theorem except_bind_ok {α β : Type} (a : α) (f : α → Except String β) :
    (Except.ok a >>= f) = f a := rfl

/-- Reduction of `pure` in the `Except` monad. -/
theorem except_pure_eq {α : Type} (a : α) :
    (pure a : Except String α) = Except.ok a := rfl

/-- The method declarations of a trait body, in declaration order. -/
def method_decls : List TraitItem → List TraitItemMethod
| [] => []
| TraitItem.method m :: rest => m :: method_decls rest
| TraitItem.other _ :: rest => method_decls rest

/-- `collect_methods` is the monadic map of `make_method` over the method
declarations in declaration order. -/
theorem collect_methods_eq_mapM (s : String) (items : List TraitItem) :
    collect_methods s items
      = (method_decls items).mapM (fun mm => make_method mm s) := by
  induction items with
  | nil => rfl
  | cons it rest ih =>
    cases it with
    | other tag =>
      simp only [collect_methods, method_decls]
      exact ih
    | method m =>
      simp only [collect_methods, method_decls, List.mapM_cons, ih]
      cases make_method m s with
      | error e => rfl
      | ok d =>
        cases (method_decls rest).mapM (fun mm => make_method mm s) with
        | error e => rfl
        | ok ds => rfl

/-- A successful monadic map of `make_method` preserves names positionally. -/
theorem mapM_make_method_names (s : String) :
    ∀ (ms : List TraitItemMethod) (ds : List MyMethod),
      ms.mapM (fun mm => make_method mm s) = Except.ok ds →
      ds.map MyMethod.name = ms.map TraitItemMethod.name
| [], ds, h => by
    simp only [List.mapM_nil, except_pure_eq, Except.ok.injEq] at h
    rw [← h]
    rfl
| m :: rest, ds, h => by
    rw [List.mapM_cons] at h
    cases hmm : make_method m s with
    | error e =>
      rw [hmm, except_bind_error] at h
      cases h
    | ok d =>
      rw [hmm, except_bind_ok] at h
      cases hrest : rest.mapM (fun mm => make_method mm s) with
      | error e =>
        rw [hrest, except_bind_error] at h
        cases h
      | ok ds2 =>
        rw [hrest, except_bind_ok, except_pure_eq, Except.ok.injEq] at h
        obtain ⟨ty, -, rfl⟩ := (make_method_ok_iff m s d).mp hmm
        rw [← h]
        simp only [List.map_cons, mapM_make_method_names s rest ds2 hrest]
        rfl

/-- Discriminator for method items of a trait body. -/
def is_method_item : TraitItem → Bool
| TraitItem.method _ => true
| TraitItem.other _ => false

/-- Dropping the non-method items does not change `collect_methods`. -/
theorem collect_methods_filter (s : String) (items : List TraitItem) :
    collect_methods s (items.filter is_method_item) = collect_methods s items := by
  induction items with
  | nil => rfl
  | cons it rest ih =>
    cases it with
    | method m =>
      simp only [List.filter_cons, is_method_item, if_pos, collect_methods, ih]
    | other tag =>
      simp only [List.filter_cons, is_method_item, if_neg, Bool.false_eq_true,
        ite_false, collect_methods, ih]

/-- On a body with no method items, `collect_methods` returns the empty
method list and never an error. -/
theorem collect_methods_no_methods (s : String) :
    ∀ items : List TraitItem,
      (∀ it ∈ items, is_method_item it = false) →
      collect_methods s items = Except.ok []
| [], _ => rfl
| TraitItem.method m :: rest, h => by
    have := h (TraitItem.method m) (List.mem_cons_self _ _)
    simp [is_method_item] at this
| TraitItem.other tag :: rest, h =>
    collect_methods_no_methods s rest
      (fun it hit => h it (List.mem_cons_of_mem _ hit))

/-- Appending a common prefix and a common suffix is injective in the
middle string. -/
theorem append_middle_inj (p u n1 n2 : String)
    (h : p ++ n1 ++ u = p ++ n2 ++ u) : n1 = n2 := by
  have hd := congrArg String.data h
  simp only [String.data_append] at hd
  exact String.toList_inj.mp
    (List.append_cancel_left (List.append_cancel_right hd))

/-- No string ending in the suffix `_request` equals one ending in the
suffix `_response`: their last characters differ. -/
theorem request_suffix_ne_response_suffix (a b : String) :
    a ++ "_request" ≠ b ++ "_response" := by
  intro hEq
  have hd := congrArg String.data hEq
  simp only [String.data_append] at hd
  have h1 := congrArg List.getLast? hd
  rw [List.getLast?_append_of_ne_nil a.data (by decide),
      List.getLast?_append_of_ne_nil b.data (by decide)] at h1
  exact absurd h1 (by decide)

/-- The method `fn h();` with no parameters. -/
def zero_param_method : TraitItemMethod :=
  { name := "h"
    attrs := []
    inputs := []
    output := ReturnType.default }

/-- Characterization of the successful runs of `tonic_rpc`: success of
`collect_methods` with the assembled service threaded, unchanged, into the
alias block and both generator invocations. -/
theorem tonic_rpc_ok_iff (a : String) (t : ItemTrait) (out : GeneratedOutput) :
    tonic_rpc a t = Except.ok out ↔
      ∃ methods, collect_methods t.ident t.items = Except.ok methods ∧
        out = { type_aliases := emit_type_aliases methods
                client :=
                  { service :=
                      { name := t.ident, package := t.ident,
                        identifier := t.ident, methods := methods }
                    codec_path := CODEC_PATH, proto_path := "" }
                server :=
                  { service :=
                      { name := t.ident, package := t.ident,
                        identifier := t.ident, methods := methods }
                    codec_path := CODEC_PATH, proto_path := "" } } := by
  cases hcm : collect_methods t.ident t.items with
  | error e => simp [tonic_rpc, hcm]
  | ok methods => simp [tonic_rpc, hcm, eq_comm]

/-! The claim theorems. -/

/-- C1: refuted on the code.  The macro receives its attribute tokens as
`_attributes` and never inspects them, and both generator invocations read
the constant codec path `tonic_rpc::json_codec::MyCodec`; transforming the
scenario trait under the `cbor` selector and under the `json` selector
yields identical output, both carrying the json codec identifier, so a
different codec selector does not yield a different codec identifier. -/
theorem codec_selector_ignored :
    cbor_selector ≠ json_selector ∧
    tonic_rpc cbor_selector calc_trait = tonic_rpc json_selector calc_trait ∧
    (tonic_rpc cbor_selector calc_trait).toOption.map
        (fun o => (o.client.codec_path, o.server.codec_path))
      = some (CODEC_PATH, CODEC_PATH) ∧
    CODEC_PATH = "tonic_rpc::json_codec::MyCodec" :=
  ⟨by decide, rfl, rfl, rfl⟩

/-- C2: refuted on the code.  A method with no declared return type gets
as response tokens not the unit type `()` but the string literal `"()"`
(four characters, quotes included), which is not the canonical unit
placeholder. -/
theorem default_response_not_unit :
    (make_method ping_method svc_name).toOption.map MyMethod.response
        = some default_response_tokens ∧
    default_response_tokens ≠ "()" :=
  ⟨rfl, by decide⟩

/-- C3 counterexample: for service `Calc` and method `add` the synthesized
request alias is `__tonic_generated_Calc_add_request`, which differs from
the claimed form `__generated_Calc_add_request`. -/
theorem alias_prefix_counterexample :
    (make_method add_method calc_name).toOption.map MyMethod.generated_request
        = some calc_add_descriptor.generated_request ∧
    calc_add_descriptor.generated_request = "__tonic_generated_Calc_add_request" ∧
    calc_add_descriptor.generated_request ≠ "__generated_Calc_add_request" :=
  ⟨rfl, rfl, by decide⟩

/-- C3 (amended): for every service and accepted method, the synthesized
aliases have exactly the form `__tonic_generated_<service>_<method>_request`
and `__tonic_generated_<service>_<method>_response`. -/
theorem alias_shape (m : TraitItemMethod) (s : String) (d : MyMethod)
    (h : make_method m s = Except.ok d) :
    d.generated_request = "__tonic_generated_" ++ s ++ "_" ++ m.name ++ "_request" ∧
    d.generated_response = "__tonic_generated_" ++ s ++ "_" ++ m.name ++ "_response" := by
  obtain ⟨ty, -, rfl⟩ := (make_method_ok_iff m s d).mp h
  exact ⟨rfl, rfl⟩

/-- Witness for the amended C3 theorem at the `Calc.add` input. -/
theorem alias_shape_witness :
    calc_add_descriptor.generated_request
        = "__tonic_generated_" ++ calc_name ++ "_" ++ add_method.name ++ "_request" ∧
    calc_add_descriptor.generated_response
        = "__tonic_generated_" ++ calc_name ++ "_" ++ add_method.name ++ "_response" :=
  alias_shape add_method calc_name calc_add_descriptor rfl

/-- C4 counterexample: `fn f(x: i32,);` has exactly one formal parameter,
yet `make_method` aborts on it, because the trailing comma makes the sole
punctuated pair a `Pair::Punctuated`. -/
theorem one_param_trailing_comma_rejected :
    trailing_comma_method.inputs.length = 1 ∧
    make_method trailing_comma_method svc_name = Except.error invalid_arg_msg :=
  ⟨rfl, rfl⟩

/-- C4 (amended): construction succeeds exactly when the method has a sole
typed parameter not followed by a trailing comma; in particular a
declaration with zero or with two or more parameters always fails (its
parameters are never silently truncated), and a sole receiver or a sole
parameter with a trailing comma also fails. -/
theorem arity_acceptance (m : TraitItemMethod) (s : String) :
    ((∃ d, make_method m s = Except.ok d) ↔
      ∃ ty, m.inputs = [Pair.end_ (FnArg.typed ty)]) ∧
    (m.inputs.length ≠ 1 → make_method m s = Except.error invalid_arg_msg) := by
  constructor
  · constructor
    · rintro ⟨d, h⟩
      obtain ⟨ty, hty, -⟩ := (make_method_ok_iff m s d).mp h
      exact ⟨ty, hty⟩
    · rintro ⟨ty, hty⟩
      exact ⟨normalized m s ty,
        (make_method_ok_iff m s (normalized m s ty)).mpr ⟨ty, hty, rfl⟩⟩
  · intro hlen
    simp [make_method, hlen]

/-- Witness for the amended C4 theorem: the well-shaped `add` method is
accepted, the zero-parameter method is rejected. -/
theorem arity_acceptance_witness :
    (∃ d, make_method add_method svc_name = Except.ok d) ∧
    make_method zero_param_method svc_name = Except.error invalid_arg_msg :=
  ⟨(arity_acceptance add_method svc_name).1.mpr ⟨"Pair", rfl⟩,
   (arity_acceptance zero_param_method svc_name).2 (by decide)⟩

/-- C5: an accepted method's descriptor has `server_streaming = true` iff
the declaration carries the `server_streaming` attribute, and
`client_streaming = false` in all cases. -/
theorem streaming_flags (m : TraitItemMethod) (s : String) (d : MyMethod)
    (h : make_method m s = Except.ok d) :
    (d.server_streaming = true ↔ "server_streaming" ∈ m.attrs) ∧
    d.client_streaming = false := by
  obtain ⟨ty, -, rfl⟩ := (make_method_ok_iff m s d).mp h
  refine ⟨?_, rfl⟩
  simp [normalized, List.any_eq_true]

/-- Witness for C5 at the annotated `watch` method of `Calc`. -/
theorem streaming_flags_witness :
    (calc_watch_descriptor.server_streaming = true
        ↔ "server_streaming" ∈ watch_method.attrs) ∧
    calc_watch_descriptor.client_streaming = false :=
  streaming_flags watch_method calc_name calc_watch_descriptor rfl

/-- C6: the method sequence of the assembled service descriptor is exactly
the in-order normalization of the trait body's method declarations — the
monadic map of `make_method` over `method_decls` in declaration order —
with names preserved positionally, and the client and server generator
invocations see that same service descriptor. -/
theorem method_order (a : String) (t : ItemTrait) (out : GeneratedOutput)
    (h : tonic_rpc a t = Except.ok out) :
    (method_decls t.items).mapM (fun mm => make_method mm t.ident)
        = Except.ok out.client.service.methods ∧
    out.client.service.methods.map MyMethod.name
        = (method_decls t.items).map TraitItemMethod.name ∧
    out.server.service = out.client.service := by
  obtain ⟨methods, hcm, rfl⟩ := (tonic_rpc_ok_iff a t out).mp h
  have hm : (method_decls t.items).mapM (fun mm => make_method mm t.ident)
      = Except.ok methods := by
    rw [← collect_methods_eq_mapM]
    exact hcm
  exact ⟨hm, mapM_make_method_names t.ident (method_decls t.items) methods hm, rfl⟩

/-- Witness for C6 at the scenario trait `Calc`. -/
theorem method_order_witness :
    ((method_decls calc_trait.items).mapM (fun mm => make_method mm calc_trait.ident)
        = Except.ok calc_output.client.service.methods) ∧
    calc_output.client.service.methods.map MyMethod.name
        = (method_decls calc_trait.items).map TraitItemMethod.name ∧
    calc_output.server.service = calc_output.client.service :=
  method_order json_selector calc_trait calc_output rfl

/-- C7: determinism — the transformation is a pure function of the codec
selector tokens and the parsed trait (the embedding threads no state), so
equal inputs yield identical generated output. -/
theorem transformation_deterministic (a1 a2 : String) (t1 t2 : ItemTrait)
    (ha : a1 = a2) (ht : t1 = t2) :
    tonic_rpc a1 t1 = tonic_rpc a2 t2 := by rw [ha, ht]

/-- Witness for C7 at the scenario trait. -/
theorem transformation_deterministic_witness :
    tonic_rpc json_selector calc_trait = tonic_rpc json_selector calc_trait :=
  transformation_deterministic json_selector json_selector calc_trait calc_trait
    rfl rfl

/-- C8: non-method items of the trait body are silently skipped: the
output equals the output on the body filtered to its method items, and a
body holding only non-method items still transforms successfully rather
than erroring. -/
theorem non_method_items_ignored (a nm : String) (items : List TraitItem) :
    tonic_rpc a { ident := nm, items := items }
        = tonic_rpc a { ident := nm, items := items.filter is_method_item } ∧
    (tonic_rpc a
        { ident := nm,
          items := items.filter (fun it => !(is_method_item it)) }).isOk = true := by
  constructor
  · simp only [tonic_rpc]
    rw [collect_methods_filter]
  · have hall : ∀ it ∈ items.filter (fun it => !(is_method_item it)),
        is_method_item it = false := by
      intro it hit
      have h2 := (List.mem_filter.mp hit).2
      simpa using h2
    simp only [tonic_rpc]
    rw [collect_methods_no_methods nm _ hall]
    rfl

/-- C9: within one service, alias derivation is injective on method names
and request aliases never collide with response aliases (the two suffixes
end in different characters). -/
theorem alias_injectivity (s n1 n2 : String) (h : n1 ≠ n2) :
    request_alias s n1 ≠ request_alias s n2 ∧
    response_alias s n1 ≠ response_alias s n2 ∧
    ∀ n3 n4 : String, request_alias s n3 ≠ response_alias s n4 := by
  refine ⟨fun hEq => h ?_, fun hEq => h ?_, fun n3 n4 => ?_⟩
  · exact append_middle_inj ("__tonic_generated_" ++ s ++ "_") ("_request") n1 n2 hEq
  · exact append_middle_inj ("__tonic_generated_" ++ s ++ "_") ("_response") n1 n2 hEq
  · exact request_suffix_ne_response_suffix
      ("__tonic_generated_" ++ s ++ "_" ++ n3)
      ("__tonic_generated_" ++ s ++ "_" ++ n4)

/-- Witness for C9 at the two method names of the scenario trait. -/
theorem alias_injectivity_witness :
    request_alias calc_name add_method.name ≠ request_alias calc_name watch_method.name ∧
    response_alias calc_name add_method.name ≠ response_alias calc_name watch_method.name ∧
    request_alias calc_name add_method.name ≠ response_alias calc_name add_method.name := by
  obtain ⟨h1, h2, h3⟩ :=
    alias_injectivity calc_name add_method.name watch_method.name (by decide)
  exact ⟨h1, h2, h3 add_method.name add_method.name⟩

/-- C10: among declarations whose parameter count is exactly one,
construction fails precisely when the sole punctuated pair is a
`Pair::Punctuated` (trailing comma) or holds the `self` receiver; the
error branch is unreachable only for a sole typed, non-trailing-comma
parameter. -/
theorem single_param_error_shape (m : TraitItemMethod) (s : String)
    (h : m.inputs.length = 1) :
    make_method m s = Except.error invalid_arg_msg ↔
      (∃ x, m.inputs = [Pair.punctuated x]) ∨ m.inputs = [Pair.end_ FnArg.receiver] := by
  cases hm : m.inputs with
  | nil => rw [hm] at h; simp at h
  | cons a tl =>
    cases tl with
    | cons b tl2 => rw [hm] at h; simp at h
    | nil =>
      cases a with
      | punctuated x => simp [make_method, hm]
      | end_ x =>
        cases x with
        | receiver => simp [make_method, hm]
        | typed ty0 => simp [make_method, hm]

/-- Witness for C10 at the trailing-comma method and the receiver method. -/
theorem single_param_error_shape_witness :
    make_method trailing_comma_method svc_name = Except.error invalid_arg_msg ∧
    make_method receiver_method svc_name = Except.error invalid_arg_msg :=
  ⟨(single_param_error_shape trailing_comma_method svc_name rfl).mpr
      (Or.inl ⟨FnArg.typed ("i32"), rfl⟩),
   (single_param_error_shape receiver_method svc_name rfl).mpr (Or.inr rfl)⟩

end TonicRpc
